import Mathlib

/-!
Verification development for the Ppodo progression/achievement engine
(src/core/database.py plus the UI entry points that call it).

The SQLite tables of `Database._create_tables` are embedded as plain Lean
data: each table row becomes a structure, the `grape_stats` table (keyed by
its UNIQUE date column) becomes a total function from dates to rows, and the
AUTOINCREMENT id columns become explicit counters.  Calendar dates and
timestamps are integers (a date is its day number, so Python's
`(today - last).days` is plain integer subtraction).  Experience is an `Int`,
mirroring Python's signed integers.  Each method of `Database` becomes a pure
function from the database state to a new state.
-/

namespace Ppodo

/-- One row of the `tasks` table. -/
structure Task where
  id : Nat
  title : String
  completed : Bool
  created_at : Int
  completed_at : Option Int
deriving Repr, DecidableEq

/-- One row of the `focus_sessions` table. -/
structure Session where
  id : Nat
  task_id : Option Nat
  started_at : Int
  ended_at : Option Int
  duration_minutes : Nat
  completed : Bool
deriving Repr, DecidableEq

/-- One row of the `grape_stats` table (daily statistics). -/
structure DayStat where
  grapes_earned : Nat
  bunches_completed : Nat
  boxes_completed : Nat
deriving Repr, DecidableEq

/-- The singleton `user_profile` row (id = 1). -/
structure Profile where
  level : Nat
  xp : Int
  total_grapes : Nat
  total_bunches : Nat
  total_boxes : Nat
  current_bunch_grapes : Nat
  current_box_bunches : Nat
  total_focus_minutes : Nat
  streak_days : Nat
  last_focus_date : Option Int
deriving Repr, DecidableEq

/-- One row of the `badge_definitions` table. -/
structure BadgeDef where
  id : Nat
  name : String
  description : String
  icon : String
  category : String
  condition_type : String
  condition_value : Nat
deriving Repr, DecidableEq

/-- The whole database state: the five tables plus the AUTOINCREMENT
counters of `tasks` and `focus_sessions`.  `user_badges` keeps the list of
awarded `badge_id`s; `grape_stats` maps a date to its row, defaulting to an
all-zero row for dates with no row yet. -/
structure DB where
  tasks : List Task
  sessions : List Session
  grape_stats : Int → DayStat
  profile : Profile
  user_badges : List Nat
  next_task_id : Nat
  next_session_id : Nat

/-- Column defaults of `user_profile` in `_create_tables`:
level 1, everything else 0, `last_focus_date` NULL. -/
def initialProfile : Profile :=
  { level := 1, xp := 0, total_grapes := 0, total_bunches := 0, total_boxes := 0
    current_bunch_grapes := 0, current_box_bunches := 0, total_focus_minutes := 0
    streak_days := 0, last_focus_date := none }

/-- The 15 rows seeded by `_initialize_badge_definitions`, with the ids the
AUTOINCREMENT column assigns on first run (1..15 in seed order). -/
def badgeDefinitions : List BadgeDef :=
  [ ⟨1, "첫 걸음", "포도알 1개 획득", "🌱", "마일스톤", "grapes", 1⟩
  , ⟨2, "첫 송이", "포도송이 1개 완성", "🍇", "마일스톤", "bunches", 1⟩
  , ⟨3, "첫 상자", "포도상자 1개 완성", "📦", "마일스톤", "boxes", 1⟩
  , ⟨4, "일주일 연속", "7일 연속 집중", "🔥", "연속성", "streak", 7⟩
  , ⟨5, "끈기왕", "50일 연속 집중", "💪", "연속성", "streak", 50⟩
  , ⟨6, "집중왕", "하루 10개 포도알", "⚡", "일간 성과", "daily_grapes", 10⟩
  , ⟨7, "한 달 마스터", "한 달 중 25일 집중", "👑", "일간 성과", "monthly_days", 25⟩
  , ⟨8, "백전노장", "포도알 100개 획득", "💯", "수집", "grapes", 100⟩
  , ⟨9, "포도농장", "포도상자 10개 완성", "🏭", "수집", "boxes", 10⟩
  , ⟨10, "전설", "포도알 1000개 획득", "🏆", "수집", "grapes", 1000⟩
  , ⟨11, "새벽형 인간", "오전 6-9시 집중", "🌅", "시간대", "morning_sessions", 10⟩
  , ⟨12, "올빼미족", "밤 10시 이후 집중", "🦉", "시간대", "night_sessions", 10⟩
  , ⟨13, "레벨 마스터", "레벨 10 달성", "⭐", "레벨", "level", 10⟩
  , ⟨14, "완벽주의자", "할 일 100개 완료", "✅", "태스크", "tasks_completed", 100⟩
  , ⟨15, "시간여행자", "총 100시간 집중", "⏰", "시간", "total_hours", 100⟩ ]

/-- The database state right after `Database.__init__` on a fresh file:
empty tables, the seeded badge catalog, the default profile row. -/
def initialDB : DB :=
  { tasks := [], sessions := [], grape_stats := fun _ => ⟨0, 0, 0⟩
    profile := initialProfile, user_badges := []
    next_task_id := 1, next_session_id := 1 }

/-- `Database.add_task`: inserts a row with the given title (defaults:
completed 0, created_at now) and returns the new rowid. -/
def add_task (db : DB) (title : String) (now : Int) : DB × Nat :=
  ( { db with
        tasks := db.tasks ++ [⟨db.next_task_id, title, false, now, none⟩]
        next_task_id := db.next_task_id + 1 }
  , db.next_task_id )

/-- Python's `str.strip()`: drop leading and trailing whitespace
(space, tab, carriage return, line feed). -/
def pyStrip (s : String) : String :=
  ⟨((s.data.dropWhile Char.isWhitespace).reverse.dropWhile Char.isWhitespace).reverse⟩

/-- `TaskWidget.add_task` (src/ui/task_widget.py): strips the input and
rejects it when nothing remains, only then inserting the stripped title.
The silent `return` on an empty stripped title is the spec's
`ValidationError`: input rejected locally, no state change. -/
def ui_add_task (db : DB) (input : String) (now : Int) :
    Except String (DB × Nat) :=
  let title := pyStrip input
  if title = "" then .error "ValidationError"
  else .ok (add_task db title now)

/-- `Database.complete_task`: `UPDATE tasks SET completed = 1,
completed_at = CURRENT_TIMESTAMP WHERE id = ?` — every row matching the id
is updated, whether or not it was already completed. -/
def complete_task (db : DB) (task_id : Nat) (now : Int) : DB :=
  { db with
      tasks := db.tasks.map fun t =>
        if t.id = task_id then { t with completed := true, completed_at := some now }
        else t }

/-- `Database.delete_task`: `DELETE FROM tasks WHERE id = ?`. -/
def delete_task (db : DB) (task_id : Nat) : DB :=
  { db with tasks := db.tasks.filter fun t => t.id ≠ task_id }

/-- `Database.start_session`: inserts a new focus session (started now,
not completed, no end) and returns its rowid.  There is no check for an
already-open session. -/
def start_session (db : DB) (task_id : Option Nat) (duration : Nat) (now : Int) :
    DB × Nat :=
  ( { db with
        sessions := db.sessions ++
          [⟨db.next_session_id, task_id, now, none, duration, false⟩]
        next_session_id := db.next_session_id + 1 }
  , db.next_session_id )

/-- `required_xp` inside `Database._add_xp`: `int(100 * (1.5 ** (level - 1)))`,
the floor of 100·(3/2)^(level−1), taken exactly (natural-number division). -/
def requiredXp (level : Nat) : Nat :=
  100 * 3 ^ (level - 1) / 2 ^ (level - 1)

/-- The `while True` level-up loop of `Database._add_xp`: while the
experience covers the current level's requirement, subtract it and level up;
otherwise stop.  Returns the final (xp, level). -/
def levelLoop (xp : Int) (level : Nat) : Int × Nat :=
  if h : (requiredXp level : Int) ≤ xp then
    levelLoop (xp - requiredXp level) (level + 1)
  else
    (xp, level)
termination_by xp.toNat
decreasing_by
  have h100 : 100 ≤ requiredXp level := by
    unfold requiredXp
    have h2 : 0 < 2 ^ (level - 1) := Nat.pos_pow_of_pos _ (by norm_num)
    rw [Nat.le_div_iff_mul_le h2]
    exact Nat.mul_le_mul_left _ (Nat.pow_le_pow_left (by norm_num) _)
  omega

/-- `Database._add_xp`: add `amount` to the profile's xp, then run the
level-up loop and store the resulting xp and level. -/
def addXpP (p : Profile) (amount : Int) : Profile :=
  let r := levelLoop (p.xp + amount) p.level
  { p with xp := r.1, level := r.2 }

/-- `Database._add_grape`: one grape is added, bunch and box rollovers are
applied to the profile, today's `grape_stats` row is upserted (the
bunch/box columns get 1 exactly when the corresponding post-update fill is
0, as in the source's `1 if new_bunch_grapes == 0 else 0`), and finally
`_add_xp(10)` runs. -/
def addGrape (db : DB) (today : Int) : DB :=
  let p := db.profile
  let new_grapes := p.total_grapes + 1
  let bunch_grapes0 := p.current_bunch_grapes + 1
  let new_bunches :=
    if bunch_grapes0 ≥ 10 then p.total_bunches + 1 else p.total_bunches
  let box_bunches0 :=
    if bunch_grapes0 ≥ 10 then p.current_box_bunches + 1 else p.current_box_bunches
  let new_bunch_grapes := if bunch_grapes0 ≥ 10 then 0 else bunch_grapes0
  let new_boxes := if box_bunches0 ≥ 10 then p.total_boxes + 1 else p.total_boxes
  let new_box_bunches := if box_bunches0 ≥ 10 then 0 else box_bunches0
  let p1 := { p with
      total_grapes := new_grapes, total_bunches := new_bunches
      total_boxes := new_boxes
      current_bunch_grapes := new_bunch_grapes
      current_box_bunches := new_box_bunches }
  let s := db.grape_stats today
  let s1 : DayStat :=
    ⟨ s.grapes_earned + 1
    , s.bunches_completed + (if new_bunch_grapes = 0 then 1 else 0)
    , s.boxes_completed + (if new_box_bunches = 0 then 1 else 0) ⟩
  { db with
      profile := addXpP p1 10
      grape_stats := fun d => if d = today then s1 else db.grape_stats d }

/-- `Database._update_streak` on the profile: compare today with
`last_focus_date` (difference in days), set the new streak, and record
today as the last focus date. -/
def updateStreakP (p : Profile) (today : Int) : Profile :=
  match p.last_focus_date with
  | none => { p with streak_days := 1, last_focus_date := some today }
  | some last =>
      let days_diff := today - last
      let ns : Nat :=
        if days_diff = 0 then p.streak_days
        else if days_diff = 1 then p.streak_days + 1
        else 1
      { p with streak_days := ns, last_focus_date := some today }

/-- `Database.complete_session`: marks the session row completed with an end
timestamp, then unconditionally runs `_add_grape` (which itself runs
`_add_xp(10)`) and `_update_streak`.  The method takes no reward flag. -/
def complete_session (db : DB) (session_id : Nat) (now today : Int) : DB :=
  let db1 := { db with
      sessions := db.sessions.map fun s =>
        if s.id = session_id then { s with completed := true, ended_at := some now }
        else s }
  let db2 := addGrape db1 today
  { db2 with profile := updateStreakP db2.profile today }

/-- The `SELECT COUNT(*) FROM tasks WHERE completed = 1` query used by the
`tasks_completed` badge condition. -/
def completedTaskCount (db : DB) : Nat :=
  (db.tasks.filter fun t => t.completed).length

/-- The badge predicate of `Database.check_and_award_badges`, evaluated
against the profile, today's stats row and the completed-task count read
at the start of the pass.  Condition types with no branch (`monthly_days`,
`morning_sessions`, `night_sessions`) leave `earned` false.  `total_hours`
divides minutes by 60 without rounding, as a rational. -/
def badgeCond (p : Profile) (todayStats : DayStat) (completedTasks : Nat)
    (b : BadgeDef) : Bool :=
  if b.condition_type = "grapes" then p.total_grapes ≥ b.condition_value
  else if b.condition_type = "bunches" then p.total_bunches ≥ b.condition_value
  else if b.condition_type = "boxes" then p.total_boxes ≥ b.condition_value
  else if b.condition_type = "streak" then p.streak_days ≥ b.condition_value
  else if b.condition_type = "daily_grapes" then
    todayStats.grapes_earned ≥ b.condition_value
  else if b.condition_type = "level" then p.level ≥ b.condition_value
  else if b.condition_type = "tasks_completed" then
    completedTasks ≥ b.condition_value
  else if b.condition_type = "total_hours" then
    (p.total_focus_minutes : ℚ) / 60 ≥ (b.condition_value : ℚ)
  else false

/-- `Database.check_and_award_badges`: the earned flags, profile, today's
stats and completed-task count are read once at the start; every badge not
yet earned whose condition holds is inserted into `user_badges` and
collected in the returned newly-awarded list.  (`get_all_badges` orders the
catalog by category and id; the pass treats each badge independently, so we
fold in seed order.) -/
def check_and_award_badges (db : DB) (today : Int) : DB × List BadgeDef :=
  let p := db.profile
  let todayStats := db.grape_stats today
  let completedTasks := completedTaskCount db
  badgeDefinitions.foldl
    (fun acc b =>
      if b.id ∈ db.user_badges then acc
      else if badgeCond p todayStats completedTasks b then
        ( { acc.1 with user_badges := acc.1.user_badges ++ [b.id] }
        , acc.2 ++ [b] )
      else acc)
    (db, [])

/-- The condition a badge is checked against during one pass of
`check_and_award_badges` over the state `db` on date `today`. -/
def badgeCondIn (db : DB) (today : Int) (b : BadgeDef) : Bool :=
  badgeCond db.profile (db.grape_stats today) (completedTaskCount db) b

/-- The list of badges a single `check_and_award_badges` pass newly awards:
the catalog entries not yet earned whose condition holds. -/
def newlyAwarded (db : DB) (today : Int) : List BadgeDef :=
  badgeDefinitions.filter fun b =>
    decide (b.id ∉ db.user_badges) && badgeCondIn db today b

/-- The database after one `check_and_award_badges` pass: the newly
awarded badge ids are appended to `user_badges`; nothing else changes. -/
def awardAll (db : DB) (today : Int) : DB :=
  { db with user_badges := db.user_badges ++
      (newlyAwarded db today).map (fun b => b.id) }

/-- The operations the UI can invoke on the database, with their clock
inputs made explicit. -/
inductive Op where
  | addTask (title : String) (now : Int)
  | completeTask (task_id : Nat) (now : Int)
  | deleteTask (task_id : Nat)
  | startSession (task_id : Option Nat) (duration : Nat) (now : Int)
  | completeSession (session_id : Nat) (now today : Int)
  | checkBadges (today : Int)

/-- Apply one operation to the database state. -/
def applyOp (db : DB) : Op → DB
  | .addTask title now => (add_task db title now).1
  | .completeTask tid now => complete_task db tid now
  | .deleteTask tid => delete_task db tid
  | .startSession tid dur now => (start_session db tid dur now).1
  | .completeSession sid now today => complete_session db sid now today
  | .checkBadges today => (check_and_award_badges db today).1

/-- Apply a sequence of operations starting from a state. -/
def applyOps (db : DB) (ops : List Op) : DB :=
  ops.foldl applyOp db

/-- A sequence of qualifying session completions, one `complete_session`
call per list entry, each entry giving the session id, the end timestamp
and the calendar date of that completion. -/
def runQualifying (db : DB) (cs : List (Nat × Int × Int)) : DB :=
  cs.foldl (fun d c => complete_session d c.1 c.2.1 c.2.2) db

/-- A run of completions all of whose entries use the given dates, one
completion per date, with session id 0 and the date also serving as the
timestamp. -/
def runOnDates (db : DB) (dates : List Int) : DB :=
  runQualifying db (dates.map fun t => (0, t, t))

theorem addXpP_grape_fields (p : Profile) (a : Int) :
    (addXpP p a).total_grapes = p.total_grapes ∧
    (addXpP p a).total_bunches = p.total_bunches ∧
    (addXpP p a).total_boxes = p.total_boxes ∧
    (addXpP p a).current_bunch_grapes = p.current_bunch_grapes ∧
    (addXpP p a).current_box_bunches = p.current_box_bunches ∧
    (addXpP p a).total_focus_minutes = p.total_focus_minutes ∧
    (addXpP p a).streak_days = p.streak_days ∧
    (addXpP p a).last_focus_date = p.last_focus_date := by
  refine ⟨rfl, rfl, rfl, rfl, rfl, rfl, rfl, rfl⟩

theorem updateStreakP_other_fields (p : Profile) (d : Int) :
    (updateStreakP p d).total_grapes = p.total_grapes ∧
    (updateStreakP p d).total_bunches = p.total_bunches ∧
    (updateStreakP p d).total_boxes = p.total_boxes ∧
    (updateStreakP p d).current_bunch_grapes = p.current_bunch_grapes ∧
    (updateStreakP p d).current_box_bunches = p.current_box_bunches ∧
    (updateStreakP p d).total_focus_minutes = p.total_focus_minutes ∧
    (updateStreakP p d).xp = p.xp ∧
    (updateStreakP p d).level = p.level := by
  unfold updateStreakP
  cases p.last_focus_date <;> exact ⟨rfl, rfl, rfl, rfl, rfl, rfl, rfl, rfl⟩

theorem complete_session_grapes (db : DB) (sid : Nat) (now today : Int) :
    (complete_session db sid now today).profile.total_grapes
        = db.profile.total_grapes + 1 ∧
    (complete_session db sid now today).profile.total_bunches
        = (if db.profile.current_bunch_grapes + 1 ≥ 10
            then db.profile.total_bunches + 1 else db.profile.total_bunches) ∧
    (complete_session db sid now today).profile.current_bunch_grapes
        = (if db.profile.current_bunch_grapes + 1 ≥ 10
            then 0 else db.profile.current_bunch_grapes + 1) := by
  unfold complete_session addGrape
  simp only [updateStreakP_other_fields, addXpP_grape_fields]
  exact ⟨trivial, trivial, trivial⟩

theorem runQualifying_invariant (cs : List (Nat × Int × Int)) :
    ∀ (db : DB) (n : Nat),
      db.profile.total_grapes = n →
      db.profile.total_bunches = n / 10 →
      db.profile.current_bunch_grapes = n % 10 →
      (runQualifying db cs).profile.total_grapes = n + cs.length ∧
      (runQualifying db cs).profile.total_bunches = (n + cs.length) / 10 ∧
      (runQualifying db cs).profile.current_bunch_grapes
        = (n + cs.length) % 10 := by
  induction cs with
  | nil => intro db n h1 h2 h3; simpa [runQualifying] using ⟨h1, h2, h3⟩
  | cons c rest ih =>
      intro db n h1 h2 h3
      have hstep := complete_session_grapes db c.1 c.2.1 c.2.2
      have hrec := ih (complete_session db c.1 c.2.1 c.2.2) (n + 1) ?_ ?_ ?_
      · simpa [runQualifying, Nat.add_assoc, Nat.add_comm 1 rest.length]
          using hrec
      · omega
      · rw [hstep.2.1, h2, h3]; split <;> omega
      · rw [hstep.2.2, h3]; split <;> omega

/-- C1: starting from the fresh profile, after any sequence of N qualifying
session completions the profile holds N grapes, N / 10 bunches and a bunch
fill of N % 10, the rollovers of `_add_grape` having been applied on each
completion. -/
theorem qualifying_totals (cs : List (Nat × Int × Int)) :
    (runQualifying initialDB cs).profile.total_grapes = cs.length ∧
    (runQualifying initialDB cs).profile.total_bunches = cs.length / 10 ∧
    (runQualifying initialDB cs).profile.current_bunch_grapes
      = cs.length % 10 := by
  simpa using runQualifying_invariant cs initialDB 0 rfl rfl rfl

-- ===== badge fold characterization =====

theorem badge_fold_char (ub : List Nat) (c : BadgeDef → Bool) (L : List BadgeDef) :
    ∀ (db0 : DB) (acc : List BadgeDef),
    L.foldl
      (fun acc b =>
        if b.id ∈ ub then acc
        else if c b then
          ({ acc.1 with user_badges := acc.1.user_badges ++ [b.id] }, acc.2 ++ [b])
        else acc)
      (db0, acc)
    = ( { db0 with user_badges := db0.user_badges ++
            (L.filter fun b => decide (b.id ∉ ub) && c b).map (fun b => b.id) }
      , acc ++ L.filter fun b => decide (b.id ∉ ub) && c b ) := by
  induction L with
  | nil =>
      intro db0 acc
      simp
  | cons b rest ih =>
      intro db0 acc
      by_cases hmem : b.id ∈ ub
      · simp [hmem, ih]
      · by_cases hc : c b
        · simp only [List.foldl_cons, hmem, if_neg, hc, if_pos, List.filter_cons]
          rw [ih]
          simp [hmem, hc]
        · simp [hmem, hc, ih]


theorem check_char (db : DB) (today : Int) :
    check_and_award_badges db today = (awardAll db today, newlyAwarded db today) := by
  unfold check_and_award_badges awardAll newlyAwarded badgeCondIn
  rw [badge_fold_char]
  simp

theorem badgeCondIn_awardAll (db : DB) (today : Int) (b : BadgeDef) :
    badgeCondIn (awardAll db today) today b = badgeCondIn db today b := rfl

theorem newlyAwarded_awardAll (db : DB) (today : Int) :
    newlyAwarded (awardAll db today) today = [] := by
  unfold newlyAwarded
  rw [List.filter_eq_nil_iff]
  intro b hb hcontra
  rw [Bool.and_eq_true, decide_eq_true_eq] at hcontra
  obtain ⟨hnot, hc⟩ := hcontra
  rw [badgeCondIn_awardAll] at hc
  apply hnot
  show b.id ∈ (awardAll db today).user_badges
  unfold awardAll
  apply List.mem_append_right
  apply List.mem_map_of_mem
  unfold newlyAwarded
  rw [List.mem_filter]
  refine ⟨hb, ?_⟩
  rw [Bool.and_eq_true, decide_eq_true_eq]
  refine ⟨fun hin => hnot ?_, hc⟩
  show b.id ∈ (awardAll db today).user_badges
  unfold awardAll
  exact List.mem_append_left _ hin

theorem awardAll_of_nil (db : DB) (today : Int)
    (h : newlyAwarded db today = []) : awardAll db today = db := by
  unfold awardAll
  rw [h]
  simp

/-- C5: `check_and_award_badges` is idempotent: an immediately repeated
call awards nothing, changes nothing, and any badge newly awarded by the
first call was not previously earned. -/
theorem badge_idempotent (db : DB) (today : Int) :
    (check_and_award_badges (check_and_award_badges db today).1 today).2 = [] ∧
    (check_and_award_badges (check_and_award_badges db today).1 today).1
      = (check_and_award_badges db today).1 ∧
    ∀ b ∈ (check_and_award_badges db today).2, b.id ∉ db.user_badges := by
  rw [check_char db today]
  rw [check_char (awardAll db today) today]
  refine ⟨by rw [newlyAwarded_awardAll], ?_, ?_⟩
  · exact awardAll_of_nil _ _ (newlyAwarded_awardAll db today)
  · intro b hb
    simp only at hb
    unfold newlyAwarded at hb
    rw [List.mem_filter, Bool.and_eq_true, decide_eq_true_eq] at hb
    exact hb.2.1


theorem levelLoop_spec : ∀ (xp : Int) (level : Nat), 0 ≤ xp →
    0 ≤ (levelLoop xp level).1 ∧
    (levelLoop xp level).1 < requiredXp (levelLoop xp level).2 ∧
    level ≤ (levelLoop xp level).2 ∧
    xp = (levelLoop xp level).1 +
      ∑ L in Finset.Ico level (levelLoop xp level).2, (requiredXp L : Int) := by
  intro xp level
  induction xp, level using levelLoop.induct with
  | case1 xp level h ih =>
      intro hxp
      rw [levelLoop, dif_pos h]
      have hreq : (0:Int) ≤ requiredXp level := Int.natCast_nonneg _
      obtain ⟨ih1, ih2, ih3, ih4⟩ := ih (by omega)
      refine ⟨ih1, ih2, by omega, ?_⟩
      have hlt : level < (levelLoop (xp - ↑(requiredXp level)) (level + 1)).2 := by omega
      rw [Finset.sum_eq_sum_Ico_succ_bot hlt]
      omega
  | case2 xp level h =>
      intro hxp
      rw [levelLoop, dif_neg h]
      refine ⟨hxp, ?_, le_refl _, ?_⟩
      · show xp < (requiredXp level : Int)
        omega
      · show xp = xp + ∑ L in Finset.Ico level level, (requiredXp L : Int)
        simp


/-- One award can cross several thresholds: 240 xp at level 1 plus the
10-xp award pays for level 1 (100) and level 2 (150) in one loop run. -/
theorem levelLoop_multi : levelLoop (240 + 10) 1 = (0, 3) := by
  rw [levelLoop]
  norm_num [requiredXp]
  rw [levelLoop]
  norm_num [requiredXp]
  rw [levelLoop]
  norm_num [requiredXp]

/-- C2: each qualifying completion adds exactly 10 xp and then runs the
level-up loop: the final xp is non-negative and below the final level's
requirement `floor(100 * 1.5 ^ (L - 1))`, the level never decreases, the
awarded xp splits exactly into the requirements of the levels crossed plus
the remainder, and a single award can cross several levels (240 xp at
level 1 plus one 10-xp award reaches level 3). -/
theorem xp_award_spec (db : DB) (sid : Nat) (now today : Int)
    (hxp : 0 ≤ db.profile.xp) :
    (complete_session db sid now today).profile.xp
        = (levelLoop (db.profile.xp + 10) db.profile.level).1 ∧
    (complete_session db sid now today).profile.level
        = (levelLoop (db.profile.xp + 10) db.profile.level).2 ∧
    0 ≤ (levelLoop (db.profile.xp + 10) db.profile.level).1 ∧
    (levelLoop (db.profile.xp + 10) db.profile.level).1
        < requiredXp (levelLoop (db.profile.xp + 10) db.profile.level).2 ∧
    db.profile.level ≤ (levelLoop (db.profile.xp + 10) db.profile.level).2 ∧
    db.profile.xp + 10
        = (levelLoop (db.profile.xp + 10) db.profile.level).1 +
          ∑ L in Finset.Ico db.profile.level
              (levelLoop (db.profile.xp + 10) db.profile.level).2,
            (requiredXp L : Int) ∧
    levelLoop (240 + 10) 1 = (0, 3) := by
  have hs := levelLoop_spec (db.profile.xp + 10) db.profile.level (by omega)
  refine ⟨?_, ?_, hs.1, hs.2.1, hs.2.2.1, hs.2.2.2, levelLoop_multi⟩
  · unfold complete_session addGrape
    simp only [updateStreakP_other_fields]
    rfl
  · unfold complete_session addGrape
    simp only [updateStreakP_other_fields]
    rfl

theorem updateStreakP_fields (p q : Profile) (d : Int)
    (hs : q.streak_days = p.streak_days)
    (hl : q.last_focus_date = p.last_focus_date) :
    (updateStreakP q d).streak_days = (updateStreakP p d).streak_days ∧
    (updateStreakP q d).last_focus_date = (updateStreakP p d).last_focus_date := by
  unfold updateStreakP
  rw [hl]
  cases p.last_focus_date <;> simp [hs]

theorem complete_session_streak (db : DB) (sid : Nat) (now today : Int) :
    (complete_session db sid now today).profile.streak_days
      = (updateStreakP db.profile today).streak_days ∧
    (complete_session db sid now today).profile.last_focus_date
      = (updateStreakP db.profile today).last_focus_date := by
  unfold complete_session
  exact updateStreakP_fields db.profile _ today rfl rfl


theorem updateStreakP_cases (p : Profile) (today : Int) :
    (updateStreakP p today).last_focus_date = some today ∧
    (p.last_focus_date = none → (updateStreakP p today).streak_days = 1) ∧
    (p.last_focus_date = some today →
      (updateStreakP p today).streak_days = p.streak_days) ∧
    (p.last_focus_date = some (today - 1) →
      (updateStreakP p today).streak_days = p.streak_days + 1) ∧
    (∀ l, p.last_focus_date = some l → today - l ≠ 0 → today - l ≠ 1 →
      (updateStreakP p today).streak_days = 1) := by
  refine ⟨?_, ?_, ?_, ?_, ?_⟩
  · unfold updateStreakP
    cases p.last_focus_date <;> rfl
  · intro h; unfold updateStreakP; rw [h]
  · intro h; unfold updateStreakP; rw [h]; simp
  · intro h; unfold updateStreakP; rw [h]
    have h1 : today - (today - 1) = 1 := by ring
    simp [h1]
  · intro l h h0 h1; unfold updateStreakP; rw [h]
    simp [h0, h1]

theorem streak_scenarios (d : Int) :
    (runOnDates initialDB [d, d + 1, d + 2]).profile.streak_days = 3 ∧
    (runOnDates initialDB [d, d]).profile.streak_days = 1 := by
  have e1 := complete_session_streak initialDB 0 d d
  have s1 : (complete_session initialDB 0 d d).profile.streak_days = 1 := e1.1
  have l1 : (complete_session initialDB 0 d d).profile.last_focus_date = some d := e1.2
  constructor
  · show (complete_session (complete_session (complete_session initialDB 0 d d)
      0 (d+1) (d+1)) 0 (d+2) (d+2)).profile.streak_days = 3
    have e2 := complete_session_streak (complete_session initialDB 0 d d) 0 (d+1) (d+1)
    have hu2 := updateStreakP_cases (complete_session initialDB 0 d d).profile (d+1)
    have l1' : (complete_session initialDB 0 d d).profile.last_focus_date
        = some ((d+1) - 1) := by rw [l1]; norm_num
    have s2 : (complete_session (complete_session initialDB 0 d d) 0 (d+1) (d+1)).profile.streak_days = 2 := by
      rw [e2.1, hu2.2.2.2.1 l1', s1]
    have l2 : (complete_session (complete_session initialDB 0 d d) 0 (d+1) (d+1)).profile.last_focus_date = some (d+1) := by
      rw [e2.2]; exact hu2.1
    have e3 := complete_session_streak (complete_session (complete_session initialDB 0 d d) 0 (d+1) (d+1)) 0 (d+2) (d+2)
    have hu3 := updateStreakP_cases (complete_session (complete_session initialDB 0 d d) 0 (d+1) (d+1)).profile (d+2)
    have l2' : (complete_session (complete_session initialDB 0 d d) 0 (d+1) (d+1)).profile.last_focus_date = some ((d+2) - 1) := by
      rw [l2]; congr 1; ring
    rw [e3.1, hu3.2.2.2.1 l2', s2]
  · show (complete_session (complete_session initialDB 0 d d) 0 d d).profile.streak_days = 1
    have e2 := complete_session_streak (complete_session initialDB 0 d d) 0 d d
    have hu2 := updateStreakP_cases (complete_session initialDB 0 d d).profile d
    rw [e2.1, hu2.2.2.1 l1, s1]


theorem complete_session_boxes (db : DB) (sid : Nat) (now today : Int) :
    (complete_session db sid now today).profile.total_boxes
        = (if (if db.profile.current_bunch_grapes + 1 ≥ 10
                then db.profile.current_box_bunches + 1
                else db.profile.current_box_bunches) ≥ 10
            then db.profile.total_boxes + 1 else db.profile.total_boxes) ∧
    (complete_session db sid now today).profile.current_box_bunches
        = (if (if db.profile.current_bunch_grapes + 1 ≥ 10
                then db.profile.current_box_bunches + 1
                else db.profile.current_box_bunches) ≥ 10
            then 0
            else (if db.profile.current_bunch_grapes + 1 ≥ 10
                then db.profile.current_box_bunches + 1
                else db.profile.current_box_bunches)) := by
  unfold complete_session addGrape
  simp only [updateStreakP_other_fields, addXpP_grape_fields]
  exact ⟨trivial, trivial⟩

/-- C6: every database operation keeps both fill counters within 0..9 and
never decreases total grapes, bunches or boxes. -/
theorem op_invariants (db : DB) (op : Op)
    (h1 : db.profile.current_bunch_grapes < 10)
    (h2 : db.profile.current_box_bunches < 10) :
    (applyOp db op).profile.current_bunch_grapes < 10 ∧
    (applyOp db op).profile.current_box_bunches < 10 ∧
    db.profile.total_grapes ≤ (applyOp db op).profile.total_grapes ∧
    db.profile.total_bunches ≤ (applyOp db op).profile.total_bunches ∧
    db.profile.total_boxes ≤ (applyOp db op).profile.total_boxes := by
  cases op with
  | addTask t now => exact ⟨h1, h2, le_refl _, le_refl _, le_refl _⟩
  | completeTask tid now => exact ⟨h1, h2, le_refl _, le_refl _, le_refl _⟩
  | deleteTask tid => exact ⟨h1, h2, le_refl _, le_refl _, le_refl _⟩
  | startSession a b c => exact ⟨h1, h2, le_refl _, le_refl _, le_refl _⟩
  | checkBadges today =>
      have hc : (applyOp db (Op.checkBadges today)).profile = db.profile := by
        show (check_and_award_badges db today).1.profile = db.profile
        rw [check_char]
        rfl
      rw [hc]
      exact ⟨h1, h2, le_refl _, le_refl _, le_refl _⟩
  | completeSession sid now today =>
      have hg := complete_session_grapes db sid now today
      have hb := complete_session_boxes db sid now today
      refine ⟨?_, ?_, ?_, ?_, ?_⟩
      · show (complete_session db sid now today).profile.current_bunch_grapes < 10
        rw [hg.2.2]; split <;> omega
      · show (complete_session db sid now today).profile.current_box_bunches < 10
        rw [hb.2]; split_ifs <;> omega
      · show db.profile.total_grapes ≤ (complete_session db sid now today).profile.total_grapes
        rw [hg.1]; omega
      · show db.profile.total_bunches ≤ (complete_session db sid now today).profile.total_bunches
        rw [hg.2.1]; split <;> omega
      · show db.profile.total_boxes ≤ (complete_session db sid now today).profile.total_boxes
        rw [hb.1]; split_ifs <;> omega


/-- No operation ever writes `total_focus_minutes`. -/
theorem op_minutes (db : DB) (op : Op) :
    (applyOp db op).profile.total_focus_minutes
      = db.profile.total_focus_minutes := by
  cases op with
  | completeSession sid now today =>
      show (complete_session db sid now today).profile.total_focus_minutes = _
      unfold complete_session addGrape
      simp only [updateStreakP_other_fields, addXpP_grape_fields]
  | checkBadges today =>
      show (check_and_award_badges db today).1.profile.total_focus_minutes = _
      rw [check_char]
      rfl
  | addTask t now => rfl
  | completeTask tid now => rfl
  | deleteTask tid => rfl
  | startSession a b c => rfl

/-- The `total_hours` condition on a profile with zero focus minutes is
false: 0 / 60 hours never reaches 100. -/
theorem badgeCond_totalHours_false (p : Profile) (s : DayStat) (c : Nat)
    (hmin : p.total_focus_minutes = 0) :
    badgeCond p s c
      ⟨15, "시간여행자", "총 100시간 집중", "⏰", "시간", "total_hours", 100⟩ = false := by
  show decide ((p.total_focus_minutes : ℚ) / 60 ≥ (100 : ℚ)) = false
  rw [hmin]
  simp only [ge_iff_le, decide_eq_false_iff_not, not_le]
  norm_num

/-- The badge conditions with no evaluation branch, and the total-hours
condition on a profile with zero focus minutes, are always false. -/
theorem badgeCond_special_false (p : Profile) (s : DayStat) (c : Nat)
    (hmin : p.total_focus_minutes = 0) :
    ∀ b ∈ badgeDefinitions, (b.id = 7 ∨ b.id = 11 ∨ b.id = 12 ∨ b.id = 15) →
    badgeCond p s c b = false := by
  intro b hb hid
  fin_cases hb <;>
    first
      | exact absurd hid (by decide)
      | rfl
      | exact badgeCond_totalHours_false p s c hmin

/-- Ops other than `checkBadges` never touch `user_badges`; `checkBadges`
only appends newly awarded ids. -/
theorem reachable_invariant (ops : List Op) : ∀ (db : DB),
    db.profile.total_focus_minutes = 0 →
    (∀ i ∈ db.user_badges, i ≠ 7 ∧ i ≠ 11 ∧ i ≠ 12 ∧ i ≠ 15) →
    (applyOps db ops).profile.total_focus_minutes = 0 ∧
    ∀ i ∈ (applyOps db ops).user_badges,
      i ≠ 7 ∧ i ≠ 11 ∧ i ≠ 12 ∧ i ≠ 15 := by
  induction ops with
  | nil => intro db h1 h2; exact ⟨h1, h2⟩
  | cons op rest ih =>
      intro db h1 h2
      have hstep1 : (applyOp db op).profile.total_focus_minutes = 0 := by
        rw [op_minutes]; exact h1
      have hstep2 : ∀ i ∈ (applyOp db op).user_badges,
          i ≠ 7 ∧ i ≠ 11 ∧ i ≠ 12 ∧ i ≠ 15 := by
        cases op with
        | checkBadges today =>
            intro i hi
            have hi' : i ∈ (awardAll db today).user_badges := by
              have hc : (check_and_award_badges db today).1 = awardAll db today := by
                rw [check_char]
              have hi2 : i ∈ (check_and_award_badges db today).1.user_badges := hi
              rw [hc] at hi2
              exact hi2
            unfold awardAll at hi'
            rcases List.mem_append.mp hi' with h | h
            · exact h2 i h
            · obtain ⟨b, hbmem, rfl⟩ := List.mem_map.mp h
              have hb2 := List.mem_filter.mp hbmem
              have hcond : badgeCondIn db today b = true :=
                ((Bool.and_eq_true _ _).mp hb2.2).2
              unfold badgeCondIn at hcond
              refine ⟨?_, ?_, ?_, ?_⟩ <;> intro heq <;>
                rw [badgeCond_special_false db.profile (db.grape_stats today)
                      (completedTaskCount db) h1 b hb2.1 (by omega)] at hcond <;>
                simp at hcond
        | addTask t now => exact fun i hi => h2 i hi
        | completeTask tid now => exact fun i hi => h2 i hi
        | deleteTask tid => exact fun i hi => h2 i hi
        | startSession a b c => exact fun i hi => h2 i hi
        | completeSession sid now today => exact fun i hi => h2 i hi
      exact ih (applyOp db op) hstep1 hstep2


/-- C4: the abandon path evaluated on the code as written.
`Database.complete_session` takes no reward flag: called on the open
session of a fresh database it finalizes the session row AND changes the
profile (a grape is added, the streak becomes 1) and today's DailyStat row,
so no reward-free finalization exists in `Database`. -/
theorem complete_session_always_rewards :
    ((start_session initialDB none 10 0).1.sessions.map
        fun s => s.ended_at.isNone) = [true] ∧
    (start_session initialDB none 10 0).1.profile.total_grapes = 0 ∧
    (start_session initialDB none 10 0).1.profile.streak_days = 0 ∧
    ((start_session initialDB none 10 0).1.grape_stats 0).grapes_earned = 0 ∧
    (complete_session (start_session initialDB none 10 0).1 1 5 0).profile.total_grapes = 1 ∧
    (complete_session (start_session initialDB none 10 0).1 1 5 0).profile.streak_days = 1 ∧
    ((complete_session (start_session initialDB none 10 0).1 1 5 0).grape_stats 0).grapes_earned = 1 ∧
    ((complete_session (start_session initialDB none 10 0).1 1 5 0).sessions.map
        fun s => (s.completed, s.ended_at)) = [(true, some 5)] := by
  decide

/-- C7 counterexample: with one session already open, `start_session`
succeeds and creates a second open session instead of failing with no
state change. -/
theorem start_session_no_guard :
    (((start_session initialDB none 25 0).1.sessions.filter
        fun s => s.ended_at.isNone).length = 1) ∧
    (((start_session (start_session initialDB none 25 0).1 none 25 1).1.sessions.filter
        fun s => s.ended_at.isNone).length = 2) := by
  decide

/-- C7 amended: `start_session` performs no open-session check; it always
appends a new session with start = now, no end and completed = false and
returns its id, leaving every other table unchanged. -/
theorem start_session_spec (db : DB) (tid : Option Nat) (dur : Nat) (now : Int) :
    (start_session db tid dur now).1.sessions
      = db.sessions ++ [⟨db.next_session_id, tid, now, none, dur, false⟩] ∧
    (start_session db tid dur now).2 = db.next_session_id ∧
    (start_session db tid dur now).1.tasks = db.tasks ∧
    (start_session db tid dur now).1.profile = db.profile ∧
    (start_session db tid dur now).1.user_badges = db.user_badges ∧
    (start_session db tid dur now).1.grape_stats = db.grape_stats :=
  ⟨rfl, rfl, rfl, rfl, rfl, rfl⟩

/-- C9 counterexample: completing an already-completed task again
overwrites its completed timestamp (5 becomes 9), so a completed task's
timestamp is not immutable. -/
theorem complete_task_retimestamps :
    ((complete_task (add_task initialDB "a" 0).1 1 5).tasks.map
        fun t => (t.completed, t.completed_at)) = [(true, some 5)] ∧
    ((complete_task (complete_task (add_task initialDB "a" 0).1 1 5) 1 9).tasks.map
        fun t => (t.completed, t.completed_at)) = [(true, some 9)] := by
  decide

theorem mem_dropWhile_of_not {α : Type} (p : α → Bool) (l : List α) (c : α)
    (hc : c ∈ l) (hcp : p c = false) : c ∈ l.dropWhile p := by
  induction l with
  | nil => cases hc
  | cons x xs ih =>
      rw [List.dropWhile_cons]
      by_cases hx : p x = true
      · rw [if_pos hx]
        rcases List.mem_cons.mp hc with rfl | hmem
        · rw [hx] at hcp; cases hcp
        · exact ih hmem
      · rw [if_neg hx]
        exact hc

theorem pyStrip_eq_empty (s : String) (h : ∀ c ∈ s.data, c.isWhitespace) :
    pyStrip s = "" := by
  unfold pyStrip
  have h1 : s.data.dropWhile Char.isWhitespace = [] :=
    List.dropWhile_eq_nil_iff.mpr fun x hx => h x hx
  rw [h1]
  rfl

theorem pyStrip_ne_empty (s : String) (h : ¬ ∀ c ∈ s.data, c.isWhitespace) :
    pyStrip s ≠ "" := by
  intro hcontra
  push_neg at h
  obtain ⟨c, hc, hcw⟩ := h
  have hdata :
      ((s.data.dropWhile Char.isWhitespace).reverse.dropWhile
        Char.isWhitespace).reverse = [] := congrArg String.data hcontra
  rw [List.reverse_eq_nil_iff, List.dropWhile_eq_nil_iff] at hdata
  have hc1 : c ∈ s.data.dropWhile Char.isWhitespace :=
    mem_dropWhile_of_not _ _ c hc (Bool.not_eq_true _ ▸ hcw)
  have hc2 : c ∈ (s.data.dropWhile Char.isWhitespace).reverse :=
    List.mem_reverse.mpr hc1
  exact hcw (hdata c hc2)

/-- C8: adding a task through the UI rejects an empty or all-whitespace
title with a validation error and no state change; any other title is
stripped and inserted as a task with completed = false, and the new id is
returned. -/
theorem add_task_validation (db : DB) (input : String) (now : Int) :
    ((∀ c ∈ input.data, c.isWhitespace) →
      ui_add_task db input now = .error "ValidationError") ∧
    (¬ (∀ c ∈ input.data, c.isWhitespace) →
      ui_add_task db input now = .ok (add_task db (pyStrip input) now)) ∧
    (add_task db (pyStrip input) now).1.tasks
      = db.tasks ++ [⟨db.next_task_id, pyStrip input, false, now, none⟩] ∧
    (add_task db (pyStrip input) now).2 = db.next_task_id := by
  refine ⟨?_, ?_, rfl, rfl⟩
  · intro h
    unfold ui_add_task
    rw [if_pos (pyStrip_eq_empty input h)]
  · intro h
    unfold ui_add_task
    rw [if_neg (pyStrip_ne_empty input h)]

/-- C9 amended: `complete_task` is a no-op for an unknown id; for a known
id it sets completed = true and completed_at = now on every call, even on
an already-completed task, and touches nothing else. -/
theorem complete_task_spec (db : DB) (tid : Nat) (now : Int) :
    ((∀ t ∈ db.tasks, t.id ≠ tid) → complete_task db tid now = db) ∧
    ((complete_task db tid now).tasks = db.tasks.map fun t =>
      if t.id = tid then { t with completed := true, completed_at := some now }
      else t) ∧
    (complete_task db tid now).profile = db.profile ∧
    (complete_task db tid now).sessions = db.sessions ∧
    (complete_task db tid now).user_badges = db.user_badges := by
  refine ⟨?_, rfl, rfl, rfl, rfl⟩
  intro h
  unfold complete_task
  have hmap : (db.tasks.map fun t =>
      if t.id = tid then { t with completed := true, completed_at := some now }
      else t) = db.tasks := by
    rw [List.map_congr_left fun t ht => if_neg (h t ht)]
    simp
  rw [hmap]


/-- C3: on every qualifying completion the streak is updated exactly as
`_update_streak` on the prior profile: the last focus date becomes today;
no prior date gives streak 1, the same day keeps the streak, yesterday
increments it, and any other gap (future dates included) resets it to 1;
completions on days D, D+1, D+2 yield streak 3 and two completions on one
day yield streak 1. -/
theorem streak_update_rules (db : DB) (sid : Nat) (now today d : Int) :
    (complete_session db sid now today).profile.streak_days
        = (updateStreakP db.profile today).streak_days ∧
    (complete_session db sid now today).profile.last_focus_date
        = (updateStreakP db.profile today).last_focus_date ∧
    (updateStreakP db.profile today).last_focus_date = some today ∧
    (db.profile.last_focus_date = none →
      (updateStreakP db.profile today).streak_days = 1) ∧
    (db.profile.last_focus_date = some today →
      (updateStreakP db.profile today).streak_days = db.profile.streak_days) ∧
    (db.profile.last_focus_date = some (today - 1) →
      (updateStreakP db.profile today).streak_days
        = db.profile.streak_days + 1) ∧
    (∀ l, db.profile.last_focus_date = some l → today - l ≠ 0 → today - l ≠ 1 →
      (updateStreakP db.profile today).streak_days = 1) ∧
    (runOnDates initialDB [d, d + 1, d + 2]).profile.streak_days = 3 ∧
    (runOnDates initialDB [d, d]).profile.streak_days = 1 := by
  obtain ⟨hcs1, hcs2⟩ := complete_session_streak db sid now today
  obtain ⟨u1, u2, u3, u4, u5⟩ := updateStreakP_cases db.profile today
  obtain ⟨sc1, sc2⟩ := streak_scenarios d
  exact ⟨hcs1, hcs2, u1, u2, u3, u4, u5, sc1, sc2⟩

/-- C3 witness: on the fresh database (no recorded date) a completion on
day 5 yields streak 1. -/
theorem streak_update_rules_witness :
    (updateStreakP initialDB.profile 5).streak_days = 1 :=
  (streak_update_rules initialDB 0 0 5 0).2.2.2.1 rfl

/-- C2 witness: the level-up characterization applied to the fresh profile
(xp 0, level 1). -/
theorem xp_award_spec_witness :
    0 ≤ initialDB.profile.xp ∧
    (complete_session initialDB 0 0 0).profile.xp
      = (levelLoop (initialDB.profile.xp + 10) initialDB.profile.level).1 :=
  ⟨by decide, (xp_award_spec initialDB 0 0 0 (by decide)).1⟩

/-- C5 witness: the second badge pass on the fresh database awards
nothing. -/
theorem badge_idempotent_witness :
    (check_and_award_badges (check_and_award_badges initialDB 0).1 0).2 = [] :=
  (badge_idempotent initialDB 0).1

/-- C6 witness: the invariants hold across a session completion on the
fresh database. -/
theorem op_invariants_witness :
    initialDB.profile.current_bunch_grapes < 10 ∧
    initialDB.profile.current_box_bunches < 10 ∧
    ((applyOp initialDB (Op.completeSession 1 0 0)).profile.current_bunch_grapes < 10 ∧
     (applyOp initialDB (Op.completeSession 1 0 0)).profile.current_box_bunches < 10 ∧
     initialDB.profile.total_grapes
       ≤ (applyOp initialDB (Op.completeSession 1 0 0)).profile.total_grapes ∧
     initialDB.profile.total_bunches
       ≤ (applyOp initialDB (Op.completeSession 1 0 0)).profile.total_bunches ∧
     initialDB.profile.total_boxes
       ≤ (applyOp initialDB (Op.completeSession 1 0 0)).profile.total_boxes) :=
  ⟨by decide, by decide,
    op_invariants initialDB (Op.completeSession 1 0 0) (by decide) (by decide)⟩

/-- C8 witness: a whitespace-only title is rejected with no state
change. -/
theorem add_task_validation_witness :
    (∀ c ∈ "  ".data, c.isWhitespace) ∧
    ui_add_task initialDB "  " 0 = .error "ValidationError" :=
  ⟨by decide, (add_task_validation initialDB "  " 0).1 (by decide)⟩

/-- C9 witness: completing an id absent from the fresh database changes
nothing. -/
theorem complete_task_spec_witness :
    (∀ t ∈ initialDB.tasks, t.id ≠ 5) ∧
    complete_task initialDB 5 0 = initialDB :=
  ⟨by decide, (complete_task_spec initialDB 5 0).1 (by decide)⟩

/-- C10: along every operation sequence from the fresh database,
`total_focus_minutes` stays 0 and the badges with ids 7, 11, 12
(condition types without an evaluation branch) and 15 (total hours) are
never awarded. -/
theorem no_phantom_badges (ops : List Op) :
    (applyOps initialDB ops).profile.total_focus_minutes = 0 ∧
    ∀ i ∈ (applyOps initialDB ops).user_badges,
      i ≠ 7 ∧ i ≠ 11 ∧ i ≠ 12 ∧ i ≠ 15 :=
  reachable_invariant ops initialDB rfl
    (fun i hi => absurd hi (List.not_mem_nil i))

/-- C10 witness: after one badge pass on the fresh database the focus
minutes are still 0. -/
theorem no_phantom_badges_witness :
    (applyOps initialDB [Op.checkBadges 0]).profile.total_focus_minutes = 0 :=
  (no_phantom_badges [Op.checkBadges 0]).1

end Ppodo
